import Mathlib

/-!
Verification of the PrivacyToken token-operation orchestrator
(src/walletInstance/token/privacyToken.ts).

The class is embedded shallowly: each method becomes a Lean function over
an explicit collaborator environment `Env`.  Every collaborator invocation
is recorded as an `Event`, so the theorems can speak about which
collaborators were invoked, in which order, and with which parameters.
Collaborator outcomes are `Except Err` values supplied by the environment.
Methods never assign to the fields of the instance, which the embedding
reflects by returning the (unchanged) instance in the `self` field of
`OpOut`.
-/

namespace SdkV2

/-- Spendable coin records are opaque to the orchestrator; model them as
naturals. -/
abbrev Coin := Nat

/-- Bridge-history records are opaque to the orchestrator. -/
abbrev BridgeHistoryRecord := Nat

/-- Error values surfaced by the orchestrator: validation failures raised
by the Validator utility, domain errors raised via the ErrorCode
constructor, and opaque payloads of collaborator failures. -/
inductive Err where
  | validation (param : String) (rule : String)
  | errorCode (message : String)
  | collab (payload : Nat)
  deriving DecidableEq, Repr

/-- The slice of AccountKeySetModel the orchestrator reads. -/
structure AccountKeySet where
  paymentAddressKeySerialized : String
  deriving DecidableEq, Repr

/-- The slice of BridgeInfoInterface the orchestrator reads. -/
structure BridgeInfo where
  currencyType : Nat
  contractID : String
  deriving DecidableEq, Repr

/-- The slice of PrivacyTokenApiModel read by the constructor. -/
structure PrivacyTokenApi where
  tokenId : String
  name : String
  symbol : String
  supplyAmount : Int
  bridgeInfo : Option BridgeInfo
  deriving DecidableEq, Repr

/-- A payment-info entry: a destination address and an amount. -/
structure PaymentInfo where
  paymentAddress : String
  amount : Int
  deriving DecidableEq, Repr

/-- The PrivacyToken entity: identity fields from the Token superclass,
the privacy marker, total supply and the optional bridge configuration. -/
structure PrivacyToken where
  tokenId : String
  name : String
  symbol : String
  isPrivacyToken : Bool
  totalSupply : Int
  bridgeInfo : Option BridgeInfo
  accountKeySet : AccountKeySet
  deriving DecidableEq, Repr

/-- The transaction-history record returned by the send collaborators;
the orchestrator reads only its transaction id. -/
structure TxHistory where
  txId : String
  deriving DecidableEq, Repr

/-- Modelled from the spec: the well-known defined Ethereum token id,
TokenInfo.BRIDGE_PRIVACY_TOKEN.DEFINED_TOKEN_ID.ETHEREUM, whose defining
module is not under src/. -/
def ETHEREUM_TOKEN_ID : String := "defined-ethereum-token-id"

/-- Modelled from the spec: the ERC20 currency-type code,
TokenInfo.BRIDGE_PRIVACY_TOKEN.CURRENCY_TYPE.ERC20, whose defining module
is not under src/. -/
def ERC20_CURRENCY_TYPE : Nat := 1

/-- Parameter record passed to the sendPrivacyToken collaborator,
mirroring the object literal built by transfer. -/
structure SendPrivacyTokenParam where
  accountKeySet : AccountKeySet
  nativeAvailableCoins : List Coin
  privacyAvailableCoins : List Coin
  nativeFee : Int
  privacyFee : Int
  privacyPaymentInfoList : List PaymentInfo
  tokenId : String
  tokenName : String
  tokenSymbol : String
  deriving DecidableEq, Repr

/-- Parameter record passed to the sendBurningRequest collaborator. -/
structure SendBurningRequestParam where
  accountKeySet : AccountKeySet
  nativeAvailableCoins : List Coin
  privacyAvailableCoins : List Coin
  nativeFee : Int
  privacyFee : Int
  tokenId : String
  tokenName : String
  tokenSymbol : String
  outchainAddress : String
  burningAmount : Int
  deriving DecidableEq, Repr

/-- Parameter record passed to the sendPrivacyTokenPdeContribution
collaborator. -/
structure PdeContributionParam where
  accountKeySet : AccountKeySet
  availableNativeCoins : List Coin
  privacyAvailableCoins : List Coin
  nativeFee : Int
  pdeContributionPairID : String
  tokenId : String
  contributedAmount : Int
  privacyFee : Int
  tokenSymbol : String
  tokenName : String
  deriving DecidableEq, Repr

/-- Parameter record passed to the sendPrivacyTokenPdeTradeRequest
collaborator. -/
structure TradeRequestParam where
  accountKeySet : AccountKeySet
  availableNativeCoins : List Coin
  privacyAvailableCoins : List Coin
  nativeFee : Int
  tradingFee : Int
  privacyFee : Int
  tokenIdBuy : String
  sellAmount : Int
  minimumAcceptableAmount : Int
  tokenName : String
  tokenSymbol : String
  tokenId : String
  deriving DecidableEq, Repr

/-- The common parameter set built by bridgeGenerateDepositAddress. -/
structure DepositCommonParams where
  paymentAddress : String
  walletAddress : String
  tokenId : String
  currencyType : Nat
  deriving DecidableEq, Repr

/-- The ERC20 generator receives the common parameters plus the contract
identifier of the bridge. -/
structure ERC20DepositParams extends DepositCommonParams where
  tokenContractID : String
  deriving DecidableEq, Repr

/-- Parameter record passed to the getBridgeHistory collaborator. -/
structure BridgeHistoryParams where
  paymentAddress : String
  tokenId : String
  deriving DecidableEq, Repr

/-- One collaborator invocation, with the parameters it was given. -/
inductive Event where
  | hasExchangeRateCall (tokenId : String)
  | getAvailableCoinsCall (tokenFilter : Option String)
  | sendPrivacyTokenCall (p : SendPrivacyTokenParam)
  | sendBurningRequestCall (p : SendBurningRequestParam)
  | sendPdeContributionCall (p : PdeContributionParam)
  | sendTradeRequestCall (p : TradeRequestParam)
  | genETHDepositAddressCall (p : DepositCommonParams)
  | genERC20DepositAddressCall (p : ERC20DepositParams)
  | genCentralizedDepositAddressCall (p : DepositCommonParams)
  | getBridgeHistoryCall (p : BridgeHistoryParams)
  deriving DecidableEq, Repr

/-- The collaborator environment: one function per external service the
orchestrator can invoke.  Each yields either a result or an error. -/
structure Env where
  hasExchangeRate : String → Except Err Bool
  getAvailableCoins : Option String → Except Err (List Coin)
  sendPrivacyToken : SendPrivacyTokenParam → Except Err TxHistory
  sendBurningRequest : SendBurningRequestParam → Except Err TxHistory
  sendPrivacyTokenPdeContribution : PdeContributionParam → Except Err TxHistory
  sendPrivacyTokenPdeTradeRequest : TradeRequestParam → Except Err TxHistory
  genETHDepositAddress : DepositCommonParams → Except Err String
  genERC20DepositAddress : ERC20DepositParams → Except Err String
  genCentralizedDepositAddress : DepositCommonParams → Except Err String
  getBridgeHistory : BridgeHistoryParams → Except Err (List BridgeHistoryRecord)

/-- Outcome of one method call: the instance afterwards, the returned or
thrown value, and the ordered list of collaborator invocations made. -/
structure OpOut (α : Type) where
  self : PrivacyToken
  result : Except Err α
  events : List Event
  deriving Repr

/-- Modelled from the spec: the Validator rule chain
`required()` (src/utils/validator is not under src/) — fails when the
value is absent. -/
def validateRequired (param : String) (v : Option α) : Except Err α :=
  match v with
  | some x => Except.ok x
  | none => Except.error (Err.validation param "required")

/-- Modelled from the spec: the Validator rule chain `required().amount()`
— fails when the value is absent or is a negative amount. -/
def validateAmount (param : String) (v : Option Int) : Except Err Int :=
  match v with
  | none => Except.error (Err.validation param "required")
  | some x => if x < 0 then Except.error (Err.validation param "amount") else Except.ok x

/-- Modelled from the spec: the Validator rule chain `required().string()`
— fails when the value is absent or is an empty string. -/
def validateString (param : String) (v : Option String) : Except Err String :=
  match v with
  | none => Except.error (Err.validation param "required")
  | some s => if s = "" then Except.error (Err.validation param "string") else Except.ok s

/-- Modelled from the spec: a well-formed payment-info entry has a
destination and a positive amount. -/
def validPaymentInfo (p : PaymentInfo) : Bool :=
  p.paymentAddress != "" && decide (0 < p.amount)

/-- Modelled from the spec: the Validator rule chain
`required().paymentInfoList()` — fails when the value is absent, the list
is empty, or some entry is not well formed. -/
def validatePaymentInfoList (param : String) (v : Option (List PaymentInfo)) :
    Except Err (List PaymentInfo) :=
  match v with
  | none => Except.error (Err.validation param "required")
  | some l =>
    if l.isEmpty then Except.error (Err.validation param "paymentInfoList")
    else if l.all validPaymentInfo then Except.ok l
    else Except.error (Err.validation param "paymentInfoList")

/-- The computed getter bridgeErc20Token: bridgeInfo present with the
ERC20 currency type. -/
def PrivacyToken.bridgeErc20Token (tok : PrivacyToken) : Bool :=
  match tok.bridgeInfo with
  | some info => info.currencyType == ERC20_CURRENCY_TYPE
  | none => false

/-- The computed getter bridgeEthereum: bridgeInfo present and the token
id equals the defined Ethereum token id. -/
def PrivacyToken.bridgeEthereum (tok : PrivacyToken) : Bool :=
  tok.bridgeInfo.isSome && tok.tokenId == ETHEREUM_TOKEN_ID

/-- The PrivacyToken constructor: both inputs required, identity fields
copied from the description, isPrivacyToken set to true, supplyAmount and
bridgeInfo captured verbatim. -/
def mkPrivacyToken (accountKeySet : Option AccountKeySet)
    (privacyTokenApi : Option PrivacyTokenApi) : Except Err PrivacyToken :=
  match validateRequired "accountKeySet" accountKeySet with
  | Except.error e => Except.error e
  | Except.ok aks =>
    match validateRequired "privacyTokenApi" privacyTokenApi with
    | Except.error e => Except.error e
    | Except.ok api =>
      Except.ok {
        tokenId := api.tokenId,
        name := api.name,
        symbol := api.symbol,
        isPrivacyToken := true,
        totalSupply := api.supplyAmount,
        bridgeInfo := api.bridgeInfo,
        accountKeySet := aks }

/-- Modelled from the spec: Token.getAvailableCoins of the superclass
(src/walletInstance/token/token.ts is not under src/) — a coin-inventory
query for this account with an optional token filter, where the filter
`none` is the null sentinel meaning the native currency. -/
def PrivacyToken.getAvailableCoins (tok : PrivacyToken) (env : Env)
    (tokenFilter : Option String) : OpOut (List Coin) :=
  { self := tok,
    result := env.getAvailableCoins tokenFilter,
    events := [Event.getAvailableCoinsCall tokenFilter] }

/-- getNativeAvailableCoins: delegates to getAvailableCoins with the null
sentinel filter. -/
def PrivacyToken.getNativeAvailableCoins (tok : PrivacyToken) (env : Env) :
    OpOut (List Coin) :=
  tok.getAvailableCoins env none

/-- hasExchangeRate: pass-through query keyed by the token id. -/
def PrivacyToken.hasExchangeRate (tok : PrivacyToken) (env : Env) : OpOut Bool :=
  { self := tok,
    result := env.hasExchangeRate tok.tokenId,
    events := [Event.hasExchangeRateCall tok.tokenId] }

/-- The object literal transfer passes to sendPrivacyToken. -/
def PrivacyToken.transferParam (tok : PrivacyToken) (c1 c2 : List Coin)
    (nativeFee privacyFee : Int) (paymentList : List PaymentInfo) :
    SendPrivacyTokenParam :=
  { accountKeySet := tok.accountKeySet,
    nativeAvailableCoins := c1,
    privacyAvailableCoins := c2,
    nativeFee := nativeFee,
    privacyFee := privacyFee,
    privacyPaymentInfoList := paymentList,
    tokenId := tok.tokenId,
    tokenName := tok.name,
    tokenSymbol := tok.symbol }

/-- transfer: validate paymentList, nativeFee, privacyFee in that order;
gather the native inventory, then this token inventory; then invoke
sendPrivacyToken; rethrow any error unchanged. -/
def PrivacyToken.transfer (tok : PrivacyToken) (env : Env)
    (paymentList : Option (List PaymentInfo)) (nativeFee privacyFee : Option Int) :
    OpOut TxHistory :=
  match validatePaymentInfoList "paymentList" paymentList with
  | Except.error e => { self := tok, result := Except.error e, events := [] }
  | Except.ok pl =>
    match validateAmount "nativeFee" nativeFee with
    | Except.error e => { self := tok, result := Except.error e, events := [] }
    | Except.ok nf =>
      match validateAmount "privacyFee" privacyFee with
      | Except.error e => { self := tok, result := Except.error e, events := [] }
      | Except.ok pf =>
        match env.getAvailableCoins none with
        | Except.error e =>
          { self := tok, result := Except.error e,
            events := [Event.getAvailableCoinsCall none] }
        | Except.ok c1 =>
          match env.getAvailableCoins (some tok.tokenId) with
          | Except.error e =>
            { self := tok, result := Except.error e,
              events := [Event.getAvailableCoinsCall none,
                Event.getAvailableCoinsCall (some tok.tokenId)] }
          | Except.ok c2 =>
            { self := tok,
              result := env.sendPrivacyToken (tok.transferParam c1 c2 nf pf pl),
              events := [Event.getAvailableCoinsCall none,
                Event.getAvailableCoinsCall (some tok.tokenId),
                Event.sendPrivacyTokenCall (tok.transferParam c1 c2 nf pf pl)] }

/-- The object literal burning passes to sendBurningRequest. -/
def PrivacyToken.burningParam (tok : PrivacyToken) (c1 c2 : List Coin)
    (nativeFee privacyFee : Int) (outchainAddress : String) (burningAmount : Int) :
    SendBurningRequestParam :=
  { accountKeySet := tok.accountKeySet,
    nativeAvailableCoins := c1,
    privacyAvailableCoins := c2,
    nativeFee := nativeFee,
    privacyFee := privacyFee,
    tokenId := tok.tokenId,
    tokenName := tok.name,
    tokenSymbol := tok.symbol,
    outchainAddress := outchainAddress,
    burningAmount := burningAmount }

/-- burning: validate outchainAddress, burningAmount, nativeFee,
privacyFee in that order; gather the native inventory, then this token
inventory; then invoke sendBurningRequest; rethrow errors unchanged. -/
def PrivacyToken.burning (tok : PrivacyToken) (env : Env)
    (outchainAddress : Option String) (burningAmount nativeFee privacyFee : Option Int) :
    OpOut TxHistory :=
  match validateString "outchainAddress" outchainAddress with
  | Except.error e => { self := tok, result := Except.error e, events := [] }
  | Except.ok oa =>
    match validateAmount "burningAmount" burningAmount with
    | Except.error e => { self := tok, result := Except.error e, events := [] }
    | Except.ok ba =>
      match validateAmount "nativeFee" nativeFee with
      | Except.error e => { self := tok, result := Except.error e, events := [] }
      | Except.ok nf =>
        match validateAmount "privacyFee" privacyFee with
        | Except.error e => { self := tok, result := Except.error e, events := [] }
        | Except.ok pf =>
          match env.getAvailableCoins none with
          | Except.error e =>
            { self := tok, result := Except.error e,
              events := [Event.getAvailableCoinsCall none] }
          | Except.ok c1 =>
            match env.getAvailableCoins (some tok.tokenId) with
            | Except.error e =>
              { self := tok, result := Except.error e,
                events := [Event.getAvailableCoinsCall none,
                  Event.getAvailableCoinsCall (some tok.tokenId)] }
            | Except.ok c2 =>
              { self := tok,
                result := env.sendBurningRequest (tok.burningParam c1 c2 nf pf oa ba),
                events := [Event.getAvailableCoinsCall none,
                  Event.getAvailableCoinsCall (some tok.tokenId),
                  Event.sendBurningRequestCall (tok.burningParam c1 c2 nf pf oa ba)] }

/-- The object literal pdeContribution passes to the contribution
collaborator. -/
def PrivacyToken.pdeContributionParam (tok : PrivacyToken) (c1 c2 : List Coin)
    (nativeFee privacyFee : Int) (pdeContributionPairID : String)
    (contributedAmount : Int) : PdeContributionParam :=
  { accountKeySet := tok.accountKeySet,
    availableNativeCoins := c1,
    privacyAvailableCoins := c2,
    nativeFee := nativeFee,
    pdeContributionPairID := pdeContributionPairID,
    tokenId := tok.tokenId,
    contributedAmount := contributedAmount,
    privacyFee := privacyFee,
    tokenSymbol := tok.symbol,
    tokenName := tok.name }

/-- pdeContribution: validate pdeContributionPairID, contributedAmount,
nativeFee, privacyFee in that order; gather the native inventory, then
this token inventory; then invoke the contribution collaborator. -/
def PrivacyToken.pdeContribution (tok : PrivacyToken) (env : Env)
    (pdeContributionPairID : Option String)
    (contributedAmount nativeFee privacyFee : Option Int) : OpOut TxHistory :=
  match validateString "pdeContributionPairID" pdeContributionPairID with
  | Except.error e => { self := tok, result := Except.error e, events := [] }
  | Except.ok pid =>
    match validateAmount "contributedAmount" contributedAmount with
    | Except.error e => { self := tok, result := Except.error e, events := [] }
    | Except.ok ca =>
      match validateAmount "nativeFee" nativeFee with
      | Except.error e => { self := tok, result := Except.error e, events := [] }
      | Except.ok nf =>
        match validateAmount "privacyFee" privacyFee with
        | Except.error e => { self := tok, result := Except.error e, events := [] }
        | Except.ok pf =>
          match env.getAvailableCoins none with
          | Except.error e =>
            { self := tok, result := Except.error e,
              events := [Event.getAvailableCoinsCall none] }
          | Except.ok c1 =>
            match env.getAvailableCoins (some tok.tokenId) with
            | Except.error e =>
              { self := tok, result := Except.error e,
                events := [Event.getAvailableCoinsCall none,
                  Event.getAvailableCoinsCall (some tok.tokenId)] }
            | Except.ok c2 =>
              { self := tok,
                result := env.sendPrivacyTokenPdeContribution
                  (tok.pdeContributionParam c1 c2 nf pf pid ca),
                events := [Event.getAvailableCoinsCall none,
                  Event.getAvailableCoinsCall (some tok.tokenId),
                  Event.sendPdeContributionCall
                    (tok.pdeContributionParam c1 c2 nf pf pid ca)] }

/-- The object literal requestTrade passes to the trade collaborator. -/
def PrivacyToken.tradeRequestParam (tok : PrivacyToken) (c1 c2 : List Coin)
    (nativeFee privacyFee tradingFee : Int) (tokenIdBuy : String)
    (sellAmount minimumAcceptableAmount : Int) : TradeRequestParam :=
  { accountKeySet := tok.accountKeySet,
    availableNativeCoins := c1,
    privacyAvailableCoins := c2,
    nativeFee := nativeFee,
    tradingFee := tradingFee,
    privacyFee := privacyFee,
    tokenIdBuy := tokenIdBuy,
    sellAmount := sellAmount,
    minimumAcceptableAmount := minimumAcceptableAmount,
    tokenName := tok.name,
    tokenSymbol := tok.symbol,
    tokenId := tok.tokenId }

/-- requestTrade: validate tokenIdBuy, sellAmount,
minimumAcceptableAmount, nativeFee, privacyFee, tradingFee in that order;
gather the native inventory, then this token inventory; then invoke the
trade collaborator. -/
def PrivacyToken.requestTrade (tok : PrivacyToken) (env : Env)
    (tokenIdBuy : Option String)
    (sellAmount minimumAcceptableAmount nativeFee privacyFee tradingFee : Option Int) :
    OpOut TxHistory :=
  match validateString "tokenIdBuy" tokenIdBuy with
  | Except.error e => { self := tok, result := Except.error e, events := [] }
  | Except.ok tb =>
    match validateAmount "sellAmount" sellAmount with
    | Except.error e => { self := tok, result := Except.error e, events := [] }
    | Except.ok sa =>
      match validateAmount "minimumAcceptableAmount" minimumAcceptableAmount with
      | Except.error e => { self := tok, result := Except.error e, events := [] }
      | Except.ok ma =>
        match validateAmount "nativeFee" nativeFee with
        | Except.error e => { self := tok, result := Except.error e, events := [] }
        | Except.ok nf =>
          match validateAmount "privacyFee" privacyFee with
          | Except.error e => { self := tok, result := Except.error e, events := [] }
          | Except.ok pf =>
            match validateAmount "tradingFee" tradingFee with
            | Except.error e => { self := tok, result := Except.error e, events := [] }
            | Except.ok tf =>
              match env.getAvailableCoins none with
              | Except.error e =>
                { self := tok, result := Except.error e,
                  events := [Event.getAvailableCoinsCall none] }
              | Except.ok c1 =>
                match env.getAvailableCoins (some tok.tokenId) with
                | Except.error e =>
                  { self := tok, result := Except.error e,
                    events := [Event.getAvailableCoinsCall none,
                      Event.getAvailableCoinsCall (some tok.tokenId)] }
                | Except.ok c2 =>
                  { self := tok,
                    result := env.sendPrivacyTokenPdeTradeRequest
                      (tok.tradeRequestParam c1 c2 nf pf tf tb sa ma),
                    events := [Event.getAvailableCoinsCall none,
                      Event.getAvailableCoinsCall (some tok.tokenId),
                      Event.sendTradeRequestCall
                        (tok.tradeRequestParam c1 c2 nf pf tf tb sa ma)] }

/-- The common parameter set of bridgeGenerateDepositAddress: the account
payment address used both as payment address and wallet address, the token
id, and the currency type of the bridge configuration. -/
def PrivacyToken.depositCommonParams (tok : PrivacyToken) (info : BridgeInfo) :
    DepositCommonParams :=
  { paymentAddress := tok.accountKeySet.paymentAddressKeySerialized,
    walletAddress := tok.accountKeySet.paymentAddressKeySerialized,
    tokenId := tok.tokenId,
    currencyType := info.currencyType }

/-- The ERC20 generator parameters: the common parameters plus the
contract identifier of the bridge configuration. -/
def PrivacyToken.erc20DepositParams (tok : PrivacyToken) (info : BridgeInfo) :
    ERC20DepositParams :=
  { toDepositCommonParams := tok.depositCommonParams info,
    tokenContractID := info.contractID }

/-- bridgeGenerateDepositAddress: requires bridgeInfo; builds the common
parameters; branches once — Ethereum generator when bridgeEthereum,
else ERC20 generator when bridgeErc20Token, else the centralized
generator; rethrows errors unchanged. -/
def PrivacyToken.bridgeGenerateDepositAddress (tok : PrivacyToken) (env : Env) :
    OpOut String :=
  match tok.bridgeInfo with
  | none =>
    { self := tok,
      result := Except.error (Err.errorCode
        ("Token " ++ tok.tokenId ++ " does not support deposit function")),
      events := [] }
  | some info =>
    if tok.bridgeEthereum then
      { self := tok,
        result := env.genETHDepositAddress (tok.depositCommonParams info),
        events := [Event.genETHDepositAddressCall (tok.depositCommonParams info)] }
    else if tok.bridgeErc20Token then
      { self := tok,
        result := env.genERC20DepositAddress (tok.erc20DepositParams info),
        events := [Event.genERC20DepositAddressCall (tok.erc20DepositParams info)] }
    else
      { self := tok,
        result := env.genCentralizedDepositAddress (tok.depositCommonParams info),
        events := [Event.genCentralizedDepositAddressCall (tok.depositCommonParams info)] }

/-- The parameter record bridgeGetHistory passes to the history
collaborator. -/
def PrivacyToken.bridgeHistoryParams (tok : PrivacyToken) : BridgeHistoryParams :=
  { paymentAddress := tok.accountKeySet.paymentAddressKeySerialized,
    tokenId := tok.tokenId }

/-- bridgeGetHistory: requires bridgeInfo; queries the bridge-history
collaborator keyed by payment address and token id; rethrows errors
unchanged. -/
def PrivacyToken.bridgeGetHistory (tok : PrivacyToken) (env : Env) :
    OpOut (List BridgeHistoryRecord) :=
  match tok.bridgeInfo with
  | none =>
    { self := tok,
      result := Except.error (Err.errorCode
        ("Token " ++ tok.tokenId ++ " does not support bridge history function")),
      events := [] }
  | some _ =>
    { self := tok,
      result := env.getBridgeHistory tok.bridgeHistoryParams,
      events := [Event.getBridgeHistoryCall tok.bridgeHistoryParams] }

/-- A concrete account key set used by concrete scenarios. -/
def sampleKeySet : AccountKeySet := { paymentAddressKeySerialized := "addr-1" }

/-- A concrete collaborator environment in which every collaborator
succeeds with a fixed value. -/
def sampleEnv : Env :=
  { hasExchangeRate := fun _ => Except.ok true,
    getAvailableCoins := fun _ => Except.ok [],
    sendPrivacyToken := fun _ => Except.ok { txId := "tx-1" },
    sendBurningRequest := fun _ => Except.ok { txId := "tx-2" },
    sendPrivacyTokenPdeContribution := fun _ => Except.ok { txId := "tx-3" },
    sendPrivacyTokenPdeTradeRequest := fun _ => Except.ok { txId := "tx-4" },
    genETHDepositAddress := fun _ => Except.ok "eth-addr",
    genERC20DepositAddress := fun _ => Except.ok "erc20-addr",
    genCentralizedDepositAddress := fun _ => Except.ok "central-addr",
    getBridgeHistory := fun _ => Except.ok [] }

/-- A concrete token description matching the scenario of the spec. -/
def c6Api : PrivacyTokenApi :=
  { tokenId := "T1", name := "Test", symbol := "TST",
    supplyAmount := 1000, bridgeInfo := none }

/-- The token the constructor builds from c6Api and sampleKeySet. -/
def c6Token : PrivacyToken :=
  { tokenId := "T1", name := "Test", symbol := "TST",
    isPrivacyToken := true, totalSupply := 1000,
    bridgeInfo := none, accountKeySet := sampleKeySet }

/-- A concrete bridgeable ERC20 token whose id differs from the defined
Ethereum token id. -/
def erc20Token : PrivacyToken :=
  { tokenId := "token-erc20", name := "Wrapped", symbol := "WRP",
    isPrivacyToken := true, totalSupply := 7,
    bridgeInfo := some { currencyType := ERC20_CURRENCY_TYPE, contractID := "0xABC" },
    accountKeySet := sampleKeySet }

/-- A payment-info entry used by concrete scenarios. -/
def samplePayment : PaymentInfo := { paymentAddress := "dest-1", amount := 4 }

/-- The bridge configuration of erc20Token. -/
def erc20Info : BridgeInfo := { currencyType := ERC20_CURRENCY_TYPE, contractID := "0xABC" }

theorem validateAmount_error_shape (param : String) (v : Option Int) (e : Err)
    (h : validateAmount param v = Except.error e) :
    e = Err.validation param "required" ∨ e = Err.validation param "amount" := by
  cases v with
  | none =>
    simp only [validateAmount] at h
    exact Or.inl (Except.error.inj h).symm
  | some x =>
    simp only [validateAmount] at h
    by_cases hx : x < 0
    · rw [if_pos hx] at h
      exact Or.inr (Except.error.inj h).symm
    · rw [if_neg hx] at h
      cases h

theorem validateString_error_shape (param : String) (v : Option String) (e : Err)
    (h : validateString param v = Except.error e) :
    e = Err.validation param "required" ∨ e = Err.validation param "string" := by
  cases v with
  | none =>
    simp only [validateString] at h
    exact Or.inl (Except.error.inj h).symm
  | some s =>
    simp only [validateString] at h
    by_cases hs : s = ""
    · rw [if_pos hs] at h
      exact Or.inr (Except.error.inj h).symm
    · rw [if_neg hs] at h
      cases h

theorem validatePaymentInfoList_error_shape (param : String)
    (v : Option (List PaymentInfo)) (e : Err)
    (h : validatePaymentInfoList param v = Except.error e) :
    e = Err.validation param "required" ∨ e = Err.validation param "paymentInfoList" := by
  cases v with
  | none =>
    simp only [validatePaymentInfoList] at h
    exact Or.inl (Except.error.inj h).symm
  | some l =>
    simp only [validatePaymentInfoList] at h
    by_cases he : l.isEmpty
    · rw [if_pos he] at h
      exact Or.inr (Except.error.inj h).symm
    · rw [if_neg he] at h
      by_cases ha : l.all validPaymentInfo
      · rw [if_pos ha] at h
        cases h
      · rw [if_neg ha] at h
        exact Or.inr (Except.error.inj h).symm

theorem validateAmount_some_neg (param : String) (f : Int) (h : f < 0) :
    validateAmount param (some f) = Except.error (Err.validation param "amount") := by
  simp only [validateAmount, if_pos h]

/-- C8: construction fails with a ValidationError when the account key
set or the token description is absent; on success it copies tokenId,
name and symbol, sets isPrivacyToken to true, and captures supplyAmount
as totalSupply and bridgeInfo verbatim, with no further validation of
their internal shape. -/
theorem C8_constructor_contract :
    (∀ api : Option PrivacyTokenApi,
      mkPrivacyToken none api = Except.error (Err.validation "accountKeySet" "required"))
    ∧ (∀ aks : AccountKeySet,
      mkPrivacyToken (some aks) none = Except.error (Err.validation "privacyTokenApi" "required"))
    ∧ (∀ (aks : AccountKeySet) (api : PrivacyTokenApi),
      mkPrivacyToken (some aks) (some api) = Except.ok {
        tokenId := api.tokenId,
        name := api.name,
        symbol := api.symbol,
        isPrivacyToken := true,
        totalSupply := api.supplyAmount,
        bridgeInfo := api.bridgeInfo,
        accountKeySet := aks }) :=
  ⟨fun _ => rfl, fun _ => rfl, fun _ _ => rfl⟩

/-- C6: the token built from tokenId T1, name Test, symbol TST,
supplyAmount 1000 and absent bridgeInfo has totalSupply 1000,
isPrivacyToken true, bridgeErc20Token false and bridgeEthereum false, and
bridgeGetHistory on it fails with the ErrorCode domain error whose message
mentions T1, invoking no collaborator. -/
theorem C6_scenario_T1 :
    mkPrivacyToken (some sampleKeySet) (some c6Api) = Except.ok c6Token
    ∧ c6Token.totalSupply = 1000
    ∧ c6Token.isPrivacyToken = true
    ∧ c6Token.bridgeErc20Token = false
    ∧ c6Token.bridgeEthereum = false
    ∧ (∀ env : Env,
      (c6Token.bridgeGetHistory env).result
        = Except.error (Err.errorCode "Token T1 does not support bridge history function")
      ∧ (c6Token.bridgeGetHistory env).events = [])
    ∧ (∃ a b, "Token T1 does not support bridge history function" = a ++ "T1" ++ b) :=
  ⟨rfl, rfl, rfl, rfl, rfl,
    by intro env; exact ⟨rfl, rfl⟩,
    ⟨"Token ", " does not support bridge history function", by decide⟩⟩

/-- C7: transfer with an empty payment list and fees 10 and 5 fails with
a ValidationError and performs no coin-inventory query. -/
theorem C7_transfer_empty_payment_list :
    (c6Token.transfer sampleEnv (some []) (some 10) (some 5)).result
      = Except.error (Err.validation "paymentList" "paymentInfoList")
    ∧ (c6Token.transfer sampleEnv (some []) (some 10) (some 5)).events = [] :=
  ⟨rfl, rfl⟩

/-- C2: on a token whose bridgeInfo is absent, bridgeGenerateDepositAddress
and bridgeGetHistory each fail with the ErrorCode domain error naming the
token, and no deposit generator or history collaborator is invoked. -/
theorem C2_bridge_ops_without_bridgeInfo (tok : PrivacyToken) (env : Env)
    (h : tok.bridgeInfo = none) :
    ((tok.bridgeGenerateDepositAddress env).result
        = Except.error (Err.errorCode
            ("Token " ++ tok.tokenId ++ " does not support deposit function"))
      ∧ (tok.bridgeGenerateDepositAddress env).events = [])
    ∧ ((tok.bridgeGetHistory env).result
        = Except.error (Err.errorCode
            ("Token " ++ tok.tokenId ++ " does not support bridge history function"))
      ∧ (tok.bridgeGetHistory env).events = [])
    ∧ (∃ a b,
        "Token " ++ tok.tokenId ++ " does not support deposit function"
          = a ++ tok.tokenId ++ b)
    ∧ (∃ a b,
        "Token " ++ tok.tokenId ++ " does not support bridge history function"
          = a ++ tok.tokenId ++ b) := by
  refine ⟨?_, ?_, ⟨"Token ", " does not support deposit function", rfl⟩,
    ⟨"Token ", " does not support bridge history function", rfl⟩⟩
  · simp [PrivacyToken.bridgeGenerateDepositAddress, h]
  · simp [PrivacyToken.bridgeGetHistory, h]

/-- Witness for C2 at the concrete token c6Token. -/
theorem C2_bridge_ops_without_bridgeInfo_witness :
    ((c6Token.bridgeGenerateDepositAddress sampleEnv).result
        = Except.error (Err.errorCode
            ("Token " ++ c6Token.tokenId ++ " does not support deposit function"))
      ∧ (c6Token.bridgeGenerateDepositAddress sampleEnv).events = [])
    ∧ ((c6Token.bridgeGetHistory sampleEnv).result
        = Except.error (Err.errorCode
            ("Token " ++ c6Token.tokenId ++ " does not support bridge history function"))
      ∧ (c6Token.bridgeGetHistory sampleEnv).events = [])
    ∧ (∃ a b,
        "Token " ++ c6Token.tokenId ++ " does not support deposit function"
          = a ++ c6Token.tokenId ++ b)
    ∧ (∃ a b,
        "Token " ++ c6Token.tokenId ++ " does not support bridge history function"
          = a ++ c6Token.tokenId ++ b) :=
  C2_bridge_ops_without_bridgeInfo c6Token sampleEnv rfl

/-- C1: on a token whose bridgeInfo is present, bridgeGenerateDepositAddress
invokes exactly one generator, selected by priority: the Ethereum generator
with the common parameters when the token id is the defined Ethereum id
regardless of currency type; else the ERC20 generator with the common
parameters plus tokenContractID when the currency type is ERC20; else the
centralized generator with the common parameters. -/
theorem C1_deposit_branch_selection (tok : PrivacyToken) (env : Env) (info : BridgeInfo)
    (h : tok.bridgeInfo = some info) :
    (tok.tokenId = ETHEREUM_TOKEN_ID →
      (tok.bridgeGenerateDepositAddress env).events
          = [Event.genETHDepositAddressCall (tok.depositCommonParams info)]
      ∧ (tok.bridgeGenerateDepositAddress env).result
          = env.genETHDepositAddress (tok.depositCommonParams info))
    ∧ (tok.tokenId ≠ ETHEREUM_TOKEN_ID → info.currencyType = ERC20_CURRENCY_TYPE →
      (tok.bridgeGenerateDepositAddress env).events
          = [Event.genERC20DepositAddressCall (tok.erc20DepositParams info)]
      ∧ (tok.bridgeGenerateDepositAddress env).result
          = env.genERC20DepositAddress (tok.erc20DepositParams info))
    ∧ (tok.tokenId ≠ ETHEREUM_TOKEN_ID → info.currencyType ≠ ERC20_CURRENCY_TYPE →
      (tok.bridgeGenerateDepositAddress env).events
          = [Event.genCentralizedDepositAddressCall (tok.depositCommonParams info)]
      ∧ (tok.bridgeGenerateDepositAddress env).result
          = env.genCentralizedDepositAddress (tok.depositCommonParams info))
    ∧ (tok.bridgeGenerateDepositAddress env).events.length = 1 := by
  by_cases he : tok.tokenId = ETHEREUM_TOKEN_ID
  · simp [PrivacyToken.bridgeGenerateDepositAddress, PrivacyToken.bridgeEthereum, h, he]
  · by_cases hc : info.currencyType = ERC20_CURRENCY_TYPE
    · simp [PrivacyToken.bridgeGenerateDepositAddress, PrivacyToken.bridgeEthereum,
        PrivacyToken.bridgeErc20Token, h, he, hc]
    · simp [PrivacyToken.bridgeGenerateDepositAddress, PrivacyToken.bridgeEthereum,
        PrivacyToken.bridgeErc20Token, h, he, hc]

/-- Witness for C1 at the concrete ERC20 token erc20Token. -/
theorem C1_deposit_branch_selection_witness :
    (erc20Token.bridgeGenerateDepositAddress sampleEnv).events
      = [Event.genERC20DepositAddressCall (erc20Token.erc20DepositParams erc20Info)]
    ∧ (erc20Token.bridgeGenerateDepositAddress sampleEnv).result
      = sampleEnv.genERC20DepositAddress (erc20Token.erc20DepositParams erc20Info) :=
  (C1_deposit_branch_selection erc20Token sampleEnv erc20Info rfl).2.1
    (by decide) (by decide)

/-- C9: every public operation returns the instance with all fields
(tokenId, name, symbol, isPrivacyToken, totalSupply, bridgeInfo,
accountKeySet) unchanged, whether it succeeds or fails. -/
theorem C9_operations_preserve_fields (tok : PrivacyToken) (env : Env) :
    (tok.hasExchangeRate env).self = tok
    ∧ (tok.getNativeAvailableCoins env).self = tok
    ∧ (∀ pl nf pf, (tok.transfer env pl nf pf).self = tok)
    ∧ (∀ oa ba nf pf, (tok.burning env oa ba nf pf).self = tok)
    ∧ (∀ pid ca nf pf, (tok.pdeContribution env pid ca nf pf).self = tok)
    ∧ (∀ tb sa ma nf pf tf, (tok.requestTrade env tb sa ma nf pf tf).self = tok)
    ∧ (tok.bridgeGenerateDepositAddress env).self = tok
    ∧ (tok.bridgeGetHistory env).self = tok := by
  refine ⟨rfl, rfl, ?_, ?_, ?_, ?_, ?_, ?_⟩
  · intro pl nf pf
    unfold PrivacyToken.transfer
    repeat' split
    all_goals rfl
  · intro oa ba nf pf
    unfold PrivacyToken.burning
    repeat' split
    all_goals rfl
  · intro pid ca nf pf
    unfold PrivacyToken.pdeContribution
    repeat' split
    all_goals rfl
  · intro tb sa ma nf pf tf
    unfold PrivacyToken.requestTrade
    repeat' split
    all_goals rfl
  · unfold PrivacyToken.bridgeGenerateDepositAddress
    repeat' split
    all_goals rfl
  · unfold PrivacyToken.bridgeGetHistory
    repeat' split
    all_goals rfl

/-- C5: in transfer, burning, pdeContribution and requestTrade, once the
parameter validation succeeds the native inventory and this token
inventory are each gathered exactly once, both before the send
collaborator is invoked. -/
theorem C5_inventories_once_before_send (tok : PrivacyToken) (env : Env)
    (c1 c2 : List Coin)
    (hn : env.getAvailableCoins none = Except.ok c1)
    (ht : env.getAvailableCoins (some tok.tokenId) = Except.ok c2) :
    (∀ pl pl0 nf nf0 pf pf0,
      validatePaymentInfoList "paymentList" pl = Except.ok pl0 →
      validateAmount "nativeFee" nf = Except.ok nf0 →
      validateAmount "privacyFee" pf = Except.ok pf0 →
      (tok.transfer env pl nf pf).events
        = [Event.getAvailableCoinsCall none,
           Event.getAvailableCoinsCall (some tok.tokenId),
           Event.sendPrivacyTokenCall (tok.transferParam c1 c2 nf0 pf0 pl0)]
      ∧ ((tok.transfer env pl nf pf).events).count
          (Event.getAvailableCoinsCall none) = 1
      ∧ ((tok.transfer env pl nf pf).events).count
          (Event.getAvailableCoinsCall (some tok.tokenId)) = 1)
    ∧ (∀ oa oa0 ba ba0 nf nf0 pf pf0,
      validateString "outchainAddress" oa = Except.ok oa0 →
      validateAmount "burningAmount" ba = Except.ok ba0 →
      validateAmount "nativeFee" nf = Except.ok nf0 →
      validateAmount "privacyFee" pf = Except.ok pf0 →
      (tok.burning env oa ba nf pf).events
        = [Event.getAvailableCoinsCall none,
           Event.getAvailableCoinsCall (some tok.tokenId),
           Event.sendBurningRequestCall (tok.burningParam c1 c2 nf0 pf0 oa0 ba0)]
      ∧ ((tok.burning env oa ba nf pf).events).count
          (Event.getAvailableCoinsCall none) = 1
      ∧ ((tok.burning env oa ba nf pf).events).count
          (Event.getAvailableCoinsCall (some tok.tokenId)) = 1)
    ∧ (∀ pid pid0 ca ca0 nf nf0 pf pf0,
      validateString "pdeContributionPairID" pid = Except.ok pid0 →
      validateAmount "contributedAmount" ca = Except.ok ca0 →
      validateAmount "nativeFee" nf = Except.ok nf0 →
      validateAmount "privacyFee" pf = Except.ok pf0 →
      (tok.pdeContribution env pid ca nf pf).events
        = [Event.getAvailableCoinsCall none,
           Event.getAvailableCoinsCall (some tok.tokenId),
           Event.sendPdeContributionCall (tok.pdeContributionParam c1 c2 nf0 pf0 pid0 ca0)]
      ∧ ((tok.pdeContribution env pid ca nf pf).events).count
          (Event.getAvailableCoinsCall none) = 1
      ∧ ((tok.pdeContribution env pid ca nf pf).events).count
          (Event.getAvailableCoinsCall (some tok.tokenId)) = 1)
    ∧ (∀ tb tb0 sa sa0 ma ma0 nf nf0 pf pf0 tf tf0,
      validateString "tokenIdBuy" tb = Except.ok tb0 →
      validateAmount "sellAmount" sa = Except.ok sa0 →
      validateAmount "minimumAcceptableAmount" ma = Except.ok ma0 →
      validateAmount "nativeFee" nf = Except.ok nf0 →
      validateAmount "privacyFee" pf = Except.ok pf0 →
      validateAmount "tradingFee" tf = Except.ok tf0 →
      (tok.requestTrade env tb sa ma nf pf tf).events
        = [Event.getAvailableCoinsCall none,
           Event.getAvailableCoinsCall (some tok.tokenId),
           Event.sendTradeRequestCall (tok.tradeRequestParam c1 c2 nf0 pf0 tf0 tb0 sa0 ma0)]
      ∧ ((tok.requestTrade env tb sa ma nf pf tf).events).count
          (Event.getAvailableCoinsCall none) = 1
      ∧ ((tok.requestTrade env tb sa ma nf pf tf).events).count
          (Event.getAvailableCoinsCall (some tok.tokenId)) = 1) := by
  refine ⟨?_, ?_, ?_, ?_⟩
  · intro pl pl0 nf nf0 pf pf0 hpl hnf hpf
    simp only [PrivacyToken.transfer, hpl, hnf, hpf, hn, ht]
    simp [List.count_cons, List.count_nil, beq_iff_eq]
  · intro oa oa0 ba ba0 nf nf0 pf pf0 hoa hba hnf hpf
    simp only [PrivacyToken.burning, hoa, hba, hnf, hpf, hn, ht]
    simp [List.count_cons, List.count_nil, beq_iff_eq]
  · intro pid pid0 ca ca0 nf nf0 pf pf0 hpid hca hnf hpf
    simp only [PrivacyToken.pdeContribution, hpid, hca, hnf, hpf, hn, ht]
    simp [List.count_cons, List.count_nil, beq_iff_eq]
  · intro tb tb0 sa sa0 ma ma0 nf nf0 pf pf0 tf tf0 htb hsa hma hnf hpf htf
    simp only [PrivacyToken.requestTrade, htb, hsa, hma, hnf, hpf, htf, hn, ht]
    simp [List.count_cons, List.count_nil, beq_iff_eq]

/-- Witness for C5: concrete transfer through sampleEnv. -/
theorem C5_inventories_once_before_send_witness :
    (c6Token.transfer sampleEnv (some [samplePayment]) (some 10) (some 5)).events
      = [Event.getAvailableCoinsCall none,
         Event.getAvailableCoinsCall (some c6Token.tokenId),
         Event.sendPrivacyTokenCall (c6Token.transferParam [] [] 10 5 [samplePayment])]
    ∧ ((c6Token.transfer sampleEnv (some [samplePayment]) (some 10) (some 5)).events).count
        (Event.getAvailableCoinsCall none) = 1
    ∧ ((c6Token.transfer sampleEnv (some [samplePayment]) (some 10) (some 5)).events).count
        (Event.getAvailableCoinsCall (some c6Token.tokenId)) = 1 :=
  (C5_inventories_once_before_send c6Token sampleEnv [] [] rfl rfl).1
    (some [samplePayment]) [samplePayment] (some 10) 10 (some 5) 5
    rfl rfl rfl

/-- A collaborator environment whose native coin-inventory query fails
while every other collaborator succeeds. -/
def failNativeEnv : Env :=
  { sampleEnv with
    getAvailableCoins := fun f =>
      match f with
      | none => Except.error (Err.collab 7)
      | some _ => Except.ok [] }

/-- C10: in transfer, burning, pdeContribution and requestTrade, the
native inventory query completes before the token inventory query
starts: when the native query fails the token query is never issued and
the operation rejects with the native query error; when the native query
succeeds the trace begins with the native query followed by the token
query. -/
theorem C10_native_inventory_awaited_first (tok : PrivacyToken) (env : Env) :
    (∀ pl pl0 nf nf0 pf pf0,
      validatePaymentInfoList "paymentList" pl = Except.ok pl0 →
      validateAmount "nativeFee" nf = Except.ok nf0 →
      validateAmount "privacyFee" pf = Except.ok pf0 →
      (∀ e, env.getAvailableCoins none = Except.error e →
        (tok.transfer env pl nf pf).events = [Event.getAvailableCoinsCall none]
        ∧ (tok.transfer env pl nf pf).result = Except.error e)
      ∧ (∀ c1, env.getAvailableCoins none = Except.ok c1 →
        ∃ rest, (tok.transfer env pl nf pf).events
          = Event.getAvailableCoinsCall none
            :: Event.getAvailableCoinsCall (some tok.tokenId) :: rest))
    ∧ (∀ oa oa0 ba ba0 nf nf0 pf pf0,
      validateString "outchainAddress" oa = Except.ok oa0 →
      validateAmount "burningAmount" ba = Except.ok ba0 →
      validateAmount "nativeFee" nf = Except.ok nf0 →
      validateAmount "privacyFee" pf = Except.ok pf0 →
      (∀ e, env.getAvailableCoins none = Except.error e →
        (tok.burning env oa ba nf pf).events = [Event.getAvailableCoinsCall none]
        ∧ (tok.burning env oa ba nf pf).result = Except.error e)
      ∧ (∀ c1, env.getAvailableCoins none = Except.ok c1 →
        ∃ rest, (tok.burning env oa ba nf pf).events
          = Event.getAvailableCoinsCall none
            :: Event.getAvailableCoinsCall (some tok.tokenId) :: rest))
    ∧ (∀ pid pid0 ca ca0 nf nf0 pf pf0,
      validateString "pdeContributionPairID" pid = Except.ok pid0 →
      validateAmount "contributedAmount" ca = Except.ok ca0 →
      validateAmount "nativeFee" nf = Except.ok nf0 →
      validateAmount "privacyFee" pf = Except.ok pf0 →
      (∀ e, env.getAvailableCoins none = Except.error e →
        (tok.pdeContribution env pid ca nf pf).events = [Event.getAvailableCoinsCall none]
        ∧ (tok.pdeContribution env pid ca nf pf).result = Except.error e)
      ∧ (∀ c1, env.getAvailableCoins none = Except.ok c1 →
        ∃ rest, (tok.pdeContribution env pid ca nf pf).events
          = Event.getAvailableCoinsCall none
            :: Event.getAvailableCoinsCall (some tok.tokenId) :: rest))
    ∧ (∀ tb tb0 sa sa0 ma ma0 nf nf0 pf pf0 tf tf0,
      validateString "tokenIdBuy" tb = Except.ok tb0 →
      validateAmount "sellAmount" sa = Except.ok sa0 →
      validateAmount "minimumAcceptableAmount" ma = Except.ok ma0 →
      validateAmount "nativeFee" nf = Except.ok nf0 →
      validateAmount "privacyFee" pf = Except.ok pf0 →
      validateAmount "tradingFee" tf = Except.ok tf0 →
      (∀ e, env.getAvailableCoins none = Except.error e →
        (tok.requestTrade env tb sa ma nf pf tf).events = [Event.getAvailableCoinsCall none]
        ∧ (tok.requestTrade env tb sa ma nf pf tf).result = Except.error e)
      ∧ (∀ c1, env.getAvailableCoins none = Except.ok c1 →
        ∃ rest, (tok.requestTrade env tb sa ma nf pf tf).events
          = Event.getAvailableCoinsCall none
            :: Event.getAvailableCoinsCall (some tok.tokenId) :: rest)) := by
  refine ⟨?_, ?_, ?_, ?_⟩
  · intro pl pl0 nf nf0 pf pf0 hpl hnf hpf
    constructor
    · intro e he
      simp [PrivacyToken.transfer, hpl, hnf, hpf, he]
    · intro c1 hc1
      cases h2 : env.getAvailableCoins (some tok.tokenId) with
      | error e2 =>
        exact ⟨[], by simp [PrivacyToken.transfer, hpl, hnf, hpf, hc1, h2]⟩
      | ok c2 =>
        exact ⟨[Event.sendPrivacyTokenCall (tok.transferParam c1 c2 nf0 pf0 pl0)],
          by simp [PrivacyToken.transfer, hpl, hnf, hpf, hc1, h2]⟩
  · intro oa oa0 ba ba0 nf nf0 pf pf0 hoa hba hnf hpf
    constructor
    · intro e he
      simp [PrivacyToken.burning, hoa, hba, hnf, hpf, he]
    · intro c1 hc1
      cases h2 : env.getAvailableCoins (some tok.tokenId) with
      | error e2 =>
        exact ⟨[], by simp [PrivacyToken.burning, hoa, hba, hnf, hpf, hc1, h2]⟩
      | ok c2 =>
        exact ⟨[Event.sendBurningRequestCall (tok.burningParam c1 c2 nf0 pf0 oa0 ba0)],
          by simp [PrivacyToken.burning, hoa, hba, hnf, hpf, hc1, h2]⟩
  · intro pid pid0 ca ca0 nf nf0 pf pf0 hpid hca hnf hpf
    constructor
    · intro e he
      simp [PrivacyToken.pdeContribution, hpid, hca, hnf, hpf, he]
    · intro c1 hc1
      cases h2 : env.getAvailableCoins (some tok.tokenId) with
      | error e2 =>
        exact ⟨[], by simp [PrivacyToken.pdeContribution, hpid, hca, hnf, hpf, hc1, h2]⟩
      | ok c2 =>
        exact ⟨[Event.sendPdeContributionCall (tok.pdeContributionParam c1 c2 nf0 pf0 pid0 ca0)],
          by simp [PrivacyToken.pdeContribution, hpid, hca, hnf, hpf, hc1, h2]⟩
  · intro tb tb0 sa sa0 ma ma0 nf nf0 pf pf0 tf tf0 htb hsa hma hnf hpf htf
    constructor
    · intro e he
      simp [PrivacyToken.requestTrade, htb, hsa, hma, hnf, hpf, htf, he]
    · intro c1 hc1
      cases h2 : env.getAvailableCoins (some tok.tokenId) with
      | error e2 =>
        exact ⟨[], by simp [PrivacyToken.requestTrade, htb, hsa, hma, hnf, hpf, htf, hc1, h2]⟩
      | ok c2 =>
        exact ⟨[Event.sendTradeRequestCall (tok.tradeRequestParam c1 c2 nf0 pf0 tf0 tb0 sa0 ma0)],
          by simp [PrivacyToken.requestTrade, htb, hsa, hma, hnf, hpf, htf, hc1, h2]⟩

/-- Witness for C10: concrete transfer through the environment whose
native inventory query fails. -/
theorem C10_native_inventory_awaited_first_witness :
    (c6Token.transfer failNativeEnv (some [samplePayment]) (some 10) (some 5)).events
      = [Event.getAvailableCoinsCall none]
    ∧ (c6Token.transfer failNativeEnv (some [samplePayment]) (some 10) (some 5)).result
      = Except.error (Err.collab 7) :=
  (((C10_native_inventory_awaited_first c6Token failNativeEnv).1
    (some [samplePayment]) [samplePayment] (some 10) 10 (some 5) 5
    rfl rfl rfl).1) (Err.collab 7) rfl

theorem transfer_validation_phase (tok : PrivacyToken) (env : Env)
    (pl : Option (List PaymentInfo)) (nf pf : Option Int) :
    ((∃ nm rule,
        (tok.transfer env pl nf pf).result = Except.error (Err.validation nm rule))
      ∧ (tok.transfer env pl nf pf).events = [])
    ∨ (∃ pl0 nf0 pf0,
        validatePaymentInfoList "paymentList" pl = Except.ok pl0
        ∧ validateAmount "nativeFee" nf = Except.ok nf0
        ∧ validateAmount "privacyFee" pf = Except.ok pf0) := by
  cases hpl : validatePaymentInfoList "paymentList" pl with
  | error e =>
    refine Or.inl ⟨?_, by simp [PrivacyToken.transfer, hpl]⟩
    rcases validatePaymentInfoList_error_shape _ _ _ hpl with h | h
    · exact ⟨"paymentList", "required", by simp [PrivacyToken.transfer, hpl, h]⟩
    · exact ⟨"paymentList", "paymentInfoList", by simp [PrivacyToken.transfer, hpl, h]⟩
  | ok pl0 =>
    cases hnf : validateAmount "nativeFee" nf with
    | error e =>
      refine Or.inl ⟨?_, by simp [PrivacyToken.transfer, hpl, hnf]⟩
      rcases validateAmount_error_shape _ _ _ hnf with h | h
      · exact ⟨"nativeFee", "required", by simp [PrivacyToken.transfer, hpl, hnf, h]⟩
      · exact ⟨"nativeFee", "amount", by simp [PrivacyToken.transfer, hpl, hnf, h]⟩
    | ok nf0 =>
      cases hpf : validateAmount "privacyFee" pf with
      | error e =>
        refine Or.inl ⟨?_, by simp [PrivacyToken.transfer, hpl, hnf, hpf]⟩
        rcases validateAmount_error_shape _ _ _ hpf with h | h
        · exact ⟨"privacyFee", "required", by simp [PrivacyToken.transfer, hpl, hnf, hpf, h]⟩
        · exact ⟨"privacyFee", "amount", by simp [PrivacyToken.transfer, hpl, hnf, hpf, h]⟩
      | ok pf0 => exact Or.inr ⟨pl0, nf0, pf0, rfl, rfl, rfl⟩

theorem burning_validation_phase (tok : PrivacyToken) (env : Env)
    (oa : Option String) (ba nf pf : Option Int) :
    ((∃ nm rule,
        (tok.burning env oa ba nf pf).result = Except.error (Err.validation nm rule))
      ∧ (tok.burning env oa ba nf pf).events = [])
    ∨ (∃ oa0 ba0 nf0 pf0,
        validateString "outchainAddress" oa = Except.ok oa0
        ∧ validateAmount "burningAmount" ba = Except.ok ba0
        ∧ validateAmount "nativeFee" nf = Except.ok nf0
        ∧ validateAmount "privacyFee" pf = Except.ok pf0) := by
  cases hoa : validateString "outchainAddress" oa with
  | error e =>
    refine Or.inl ⟨?_, by simp [PrivacyToken.burning, hoa]⟩
    rcases validateString_error_shape _ _ _ hoa with h | h
    · exact ⟨"outchainAddress", "required", by simp [PrivacyToken.burning, hoa, h]⟩
    · exact ⟨"outchainAddress", "string", by simp [PrivacyToken.burning, hoa, h]⟩
  | ok oa0 =>
    cases hba : validateAmount "burningAmount" ba with
    | error e =>
      refine Or.inl ⟨?_, by simp [PrivacyToken.burning, hoa, hba]⟩
      rcases validateAmount_error_shape _ _ _ hba with h | h
      · exact ⟨"burningAmount", "required", by simp [PrivacyToken.burning, hoa, hba, h]⟩
      · exact ⟨"burningAmount", "amount", by simp [PrivacyToken.burning, hoa, hba, h]⟩
    | ok ba0 =>
      cases hnf : validateAmount "nativeFee" nf with
      | error e =>
        refine Or.inl ⟨?_, by simp [PrivacyToken.burning, hoa, hba, hnf]⟩
        rcases validateAmount_error_shape _ _ _ hnf with h | h
        · exact ⟨"nativeFee", "required", by simp [PrivacyToken.burning, hoa, hba, hnf, h]⟩
        · exact ⟨"nativeFee", "amount", by simp [PrivacyToken.burning, hoa, hba, hnf, h]⟩
      | ok nf0 =>
        cases hpf : validateAmount "privacyFee" pf with
        | error e =>
          refine Or.inl ⟨?_, by simp [PrivacyToken.burning, hoa, hba, hnf, hpf]⟩
          rcases validateAmount_error_shape _ _ _ hpf with h | h
          · exact ⟨"privacyFee", "required", by simp [PrivacyToken.burning, hoa, hba, hnf, hpf, h]⟩
          · exact ⟨"privacyFee", "amount", by simp [PrivacyToken.burning, hoa, hba, hnf, hpf, h]⟩
        | ok pf0 => exact Or.inr ⟨oa0, ba0, nf0, pf0, rfl, rfl, rfl, rfl⟩

theorem pdeContribution_validation_phase (tok : PrivacyToken) (env : Env)
    (pid : Option String) (ca nf pf : Option Int) :
    ((∃ nm rule,
        (tok.pdeContribution env pid ca nf pf).result = Except.error (Err.validation nm rule))
      ∧ (tok.pdeContribution env pid ca nf pf).events = [])
    ∨ (∃ pid0 ca0 nf0 pf0,
        validateString "pdeContributionPairID" pid = Except.ok pid0
        ∧ validateAmount "contributedAmount" ca = Except.ok ca0
        ∧ validateAmount "nativeFee" nf = Except.ok nf0
        ∧ validateAmount "privacyFee" pf = Except.ok pf0) := by
  cases hpid : validateString "pdeContributionPairID" pid with
  | error e =>
    refine Or.inl ⟨?_, by simp [PrivacyToken.pdeContribution, hpid]⟩
    rcases validateString_error_shape _ _ _ hpid with h | h
    · exact ⟨"pdeContributionPairID", "required", by simp [PrivacyToken.pdeContribution, hpid, h]⟩
    · exact ⟨"pdeContributionPairID", "string", by simp [PrivacyToken.pdeContribution, hpid, h]⟩
  | ok pid0 =>
    cases hca : validateAmount "contributedAmount" ca with
    | error e =>
      refine Or.inl ⟨?_, by simp [PrivacyToken.pdeContribution, hpid, hca]⟩
      rcases validateAmount_error_shape _ _ _ hca with h | h
      · exact ⟨"contributedAmount", "required", by simp [PrivacyToken.pdeContribution, hpid, hca, h]⟩
      · exact ⟨"contributedAmount", "amount", by simp [PrivacyToken.pdeContribution, hpid, hca, h]⟩
    | ok ca0 =>
      cases hnf : validateAmount "nativeFee" nf with
      | error e =>
        refine Or.inl ⟨?_, by simp [PrivacyToken.pdeContribution, hpid, hca, hnf]⟩
        rcases validateAmount_error_shape _ _ _ hnf with h | h
        · exact ⟨"nativeFee", "required", by simp [PrivacyToken.pdeContribution, hpid, hca, hnf, h]⟩
        · exact ⟨"nativeFee", "amount", by simp [PrivacyToken.pdeContribution, hpid, hca, hnf, h]⟩
      | ok nf0 =>
        cases hpf : validateAmount "privacyFee" pf with
        | error e =>
          refine Or.inl ⟨?_, by simp [PrivacyToken.pdeContribution, hpid, hca, hnf, hpf]⟩
          rcases validateAmount_error_shape _ _ _ hpf with h | h
          · exact ⟨"privacyFee", "required",
              by simp [PrivacyToken.pdeContribution, hpid, hca, hnf, hpf, h]⟩
          · exact ⟨"privacyFee", "amount",
              by simp [PrivacyToken.pdeContribution, hpid, hca, hnf, hpf, h]⟩
        | ok pf0 => exact Or.inr ⟨pid0, ca0, nf0, pf0, rfl, rfl, rfl, rfl⟩

theorem requestTrade_validation_phase (tok : PrivacyToken) (env : Env)
    (tb : Option String) (sa ma nf pf tf : Option Int) :
    ((∃ nm rule,
        (tok.requestTrade env tb sa ma nf pf tf).result = Except.error (Err.validation nm rule))
      ∧ (tok.requestTrade env tb sa ma nf pf tf).events = [])
    ∨ (∃ tb0 sa0 ma0 nf0 pf0 tf0,
        validateString "tokenIdBuy" tb = Except.ok tb0
        ∧ validateAmount "sellAmount" sa = Except.ok sa0
        ∧ validateAmount "minimumAcceptableAmount" ma = Except.ok ma0
        ∧ validateAmount "nativeFee" nf = Except.ok nf0
        ∧ validateAmount "privacyFee" pf = Except.ok pf0
        ∧ validateAmount "tradingFee" tf = Except.ok tf0) := by
  cases htb : validateString "tokenIdBuy" tb with
  | error e =>
    refine Or.inl ⟨?_, by simp [PrivacyToken.requestTrade, htb]⟩
    rcases validateString_error_shape _ _ _ htb with h | h
    · exact ⟨"tokenIdBuy", "required", by simp [PrivacyToken.requestTrade, htb, h]⟩
    · exact ⟨"tokenIdBuy", "string", by simp [PrivacyToken.requestTrade, htb, h]⟩
  | ok tb0 =>
    cases hsa : validateAmount "sellAmount" sa with
    | error e =>
      refine Or.inl ⟨?_, by simp [PrivacyToken.requestTrade, htb, hsa]⟩
      rcases validateAmount_error_shape _ _ _ hsa with h | h
      · exact ⟨"sellAmount", "required", by simp [PrivacyToken.requestTrade, htb, hsa, h]⟩
      · exact ⟨"sellAmount", "amount", by simp [PrivacyToken.requestTrade, htb, hsa, h]⟩
    | ok sa0 =>
      cases hma : validateAmount "minimumAcceptableAmount" ma with
      | error e =>
        refine Or.inl ⟨?_, by simp [PrivacyToken.requestTrade, htb, hsa, hma]⟩
        rcases validateAmount_error_shape _ _ _ hma with h | h
        · exact ⟨"minimumAcceptableAmount", "required",
            by simp [PrivacyToken.requestTrade, htb, hsa, hma, h]⟩
        · exact ⟨"minimumAcceptableAmount", "amount",
            by simp [PrivacyToken.requestTrade, htb, hsa, hma, h]⟩
      | ok ma0 =>
        cases hnf : validateAmount "nativeFee" nf with
        | error e =>
          refine Or.inl ⟨?_, by simp [PrivacyToken.requestTrade, htb, hsa, hma, hnf]⟩
          rcases validateAmount_error_shape _ _ _ hnf with h | h
          · exact ⟨"nativeFee", "required",
              by simp [PrivacyToken.requestTrade, htb, hsa, hma, hnf, h]⟩
          · exact ⟨"nativeFee", "amount",
              by simp [PrivacyToken.requestTrade, htb, hsa, hma, hnf, h]⟩
        | ok nf0 =>
          cases hpf : validateAmount "privacyFee" pf with
          | error e =>
            refine Or.inl ⟨?_, by simp [PrivacyToken.requestTrade, htb, hsa, hma, hnf, hpf]⟩
            rcases validateAmount_error_shape _ _ _ hpf with h | h
            · exact ⟨"privacyFee", "required",
                by simp [PrivacyToken.requestTrade, htb, hsa, hma, hnf, hpf, h]⟩
            · exact ⟨"privacyFee", "amount",
                by simp [PrivacyToken.requestTrade, htb, hsa, hma, hnf, hpf, h]⟩
          | ok pf0 =>
            cases htf : validateAmount "tradingFee" tf with
            | error e =>
              refine Or.inl ⟨?_, by simp [PrivacyToken.requestTrade, htb, hsa, hma, hnf, hpf, htf]⟩
              rcases validateAmount_error_shape _ _ _ htf with h | h
              · exact ⟨"tradingFee", "required",
                  by simp [PrivacyToken.requestTrade, htb, hsa, hma, hnf, hpf, htf, h]⟩
              · exact ⟨"tradingFee", "amount",
                  by simp [PrivacyToken.requestTrade, htb, hsa, hma, hnf, hpf, htf, h]⟩
            | ok tf0 => exact Or.inr ⟨tb0, sa0, ma0, nf0, pf0, tf0, rfl, rfl, rfl, rfl, rfl, rfl⟩

/-- C3: in transfer, burning, pdeContribution and requestTrade, a
negative required fee makes the operation fail with a ValidationError
while no collaborator, the coin-inventory query included, is invoked;
validation runs in declared parameter order and the first failing
parameter names the error. -/
theorem C3_negative_fee_fails_before_collaborators (tok : PrivacyToken) (env : Env) :
    (∀ pl nf pf,
      (((∃ f, nf = some f ∧ f < 0) ∨ (∃ f, pf = some f ∧ f < 0)) →
        (∃ nm rule,
          (tok.transfer env pl nf pf).result = Except.error (Err.validation nm rule))
        ∧ (tok.transfer env pl nf pf).events = [])
      ∧ (∀ pl0 f, validatePaymentInfoList "paymentList" pl = Except.ok pl0 →
          nf = some f → f < 0 →
          (tok.transfer env pl nf pf).result
            = Except.error (Err.validation "nativeFee" "amount")
          ∧ (tok.transfer env pl nf pf).events = [])
      ∧ (∀ pl0 nf0 f, validatePaymentInfoList "paymentList" pl = Except.ok pl0 →
          validateAmount "nativeFee" nf = Except.ok nf0 →
          pf = some f → f < 0 →
          (tok.transfer env pl nf pf).result
            = Except.error (Err.validation "privacyFee" "amount")
          ∧ (tok.transfer env pl nf pf).events = []))
    ∧ (∀ oa ba nf pf,
      (((∃ f, nf = some f ∧ f < 0) ∨ (∃ f, pf = some f ∧ f < 0)) →
        (∃ nm rule,
          (tok.burning env oa ba nf pf).result = Except.error (Err.validation nm rule))
        ∧ (tok.burning env oa ba nf pf).events = [])
      ∧ (∀ oa0 ba0 f, validateString "outchainAddress" oa = Except.ok oa0 →
          validateAmount "burningAmount" ba = Except.ok ba0 →
          nf = some f → f < 0 →
          (tok.burning env oa ba nf pf).result
            = Except.error (Err.validation "nativeFee" "amount")
          ∧ (tok.burning env oa ba nf pf).events = [])
      ∧ (∀ oa0 ba0 nf0 f, validateString "outchainAddress" oa = Except.ok oa0 →
          validateAmount "burningAmount" ba = Except.ok ba0 →
          validateAmount "nativeFee" nf = Except.ok nf0 →
          pf = some f → f < 0 →
          (tok.burning env oa ba nf pf).result
            = Except.error (Err.validation "privacyFee" "amount")
          ∧ (tok.burning env oa ba nf pf).events = []))
    ∧ (∀ pid ca nf pf,
      (((∃ f, nf = some f ∧ f < 0) ∨ (∃ f, pf = some f ∧ f < 0)) →
        (∃ nm rule,
          (tok.pdeContribution env pid ca nf pf).result
            = Except.error (Err.validation nm rule))
        ∧ (tok.pdeContribution env pid ca nf pf).events = [])
      ∧ (∀ pid0 ca0 f, validateString "pdeContributionPairID" pid = Except.ok pid0 →
          validateAmount "contributedAmount" ca = Except.ok ca0 →
          nf = some f → f < 0 →
          (tok.pdeContribution env pid ca nf pf).result
            = Except.error (Err.validation "nativeFee" "amount")
          ∧ (tok.pdeContribution env pid ca nf pf).events = [])
      ∧ (∀ pid0 ca0 nf0 f, validateString "pdeContributionPairID" pid = Except.ok pid0 →
          validateAmount "contributedAmount" ca = Except.ok ca0 →
          validateAmount "nativeFee" nf = Except.ok nf0 →
          pf = some f → f < 0 →
          (tok.pdeContribution env pid ca nf pf).result
            = Except.error (Err.validation "privacyFee" "amount")
          ∧ (tok.pdeContribution env pid ca nf pf).events = []))
    ∧ (∀ tb sa ma nf pf tf,
      (((∃ f, nf = some f ∧ f < 0) ∨ (∃ f, pf = some f ∧ f < 0)
          ∨ (∃ f, tf = some f ∧ f < 0)) →
        (∃ nm rule,
          (tok.requestTrade env tb sa ma nf pf tf).result
            = Except.error (Err.validation nm rule))
        ∧ (tok.requestTrade env tb sa ma nf pf tf).events = [])
      ∧ (∀ tb0 sa0 ma0 f, validateString "tokenIdBuy" tb = Except.ok tb0 →
          validateAmount "sellAmount" sa = Except.ok sa0 →
          validateAmount "minimumAcceptableAmount" ma = Except.ok ma0 →
          nf = some f → f < 0 →
          (tok.requestTrade env tb sa ma nf pf tf).result
            = Except.error (Err.validation "nativeFee" "amount")
          ∧ (tok.requestTrade env tb sa ma nf pf tf).events = [])
      ∧ (∀ tb0 sa0 ma0 nf0 f, validateString "tokenIdBuy" tb = Except.ok tb0 →
          validateAmount "sellAmount" sa = Except.ok sa0 →
          validateAmount "minimumAcceptableAmount" ma = Except.ok ma0 →
          validateAmount "nativeFee" nf = Except.ok nf0 →
          pf = some f → f < 0 →
          (tok.requestTrade env tb sa ma nf pf tf).result
            = Except.error (Err.validation "privacyFee" "amount")
          ∧ (tok.requestTrade env tb sa ma nf pf tf).events = [])
      ∧ (∀ tb0 sa0 ma0 nf0 pf0 f, validateString "tokenIdBuy" tb = Except.ok tb0 →
          validateAmount "sellAmount" sa = Except.ok sa0 →
          validateAmount "minimumAcceptableAmount" ma = Except.ok ma0 →
          validateAmount "nativeFee" nf = Except.ok nf0 →
          validateAmount "privacyFee" pf = Except.ok pf0 →
          tf = some f → f < 0 →
          (tok.requestTrade env tb sa ma nf pf tf).result
            = Except.error (Err.validation "tradingFee" "amount")
          ∧ (tok.requestTrade env tb sa ma nf pf tf).events = [])) := by
  refine ⟨?_, ?_, ?_, ?_⟩
  · intro pl nf pf
    refine ⟨?_, ?_, ?_⟩
    · intro hneg
      rcases transfer_validation_phase tok env pl nf pf with h | ⟨pl0, nf0, pf0, hpl, hnf, hpf⟩
      · exact h
      · exfalso
        rcases hneg with ⟨f, hf, hlt⟩ | ⟨f, hf, hlt⟩
        · rw [hf, validateAmount_some_neg "nativeFee" f hlt] at hnf; cases hnf
        · rw [hf, validateAmount_some_neg "privacyFee" f hlt] at hpf; cases hpf
    · intro pl0 f hpl hf hlt
      subst hf
      constructor <;>
        simp [PrivacyToken.transfer, hpl, validateAmount_some_neg "nativeFee" f hlt]
    · intro pl0 nf0 f hpl hnf hf hlt
      subst hf
      constructor <;>
        simp [PrivacyToken.transfer, hpl, hnf, validateAmount_some_neg "privacyFee" f hlt]
  · intro oa ba nf pf
    refine ⟨?_, ?_, ?_⟩
    · intro hneg
      rcases burning_validation_phase tok env oa ba nf pf with h | ⟨oa0, ba0, nf0, pf0, hoa, hba, hnf, hpf⟩
      · exact h
      · exfalso
        rcases hneg with ⟨f, hf, hlt⟩ | ⟨f, hf, hlt⟩
        · rw [hf, validateAmount_some_neg "nativeFee" f hlt] at hnf; cases hnf
        · rw [hf, validateAmount_some_neg "privacyFee" f hlt] at hpf; cases hpf
    · intro oa0 ba0 f hoa hba hf hlt
      subst hf
      constructor <;>
        simp [PrivacyToken.burning, hoa, hba, validateAmount_some_neg "nativeFee" f hlt]
    · intro oa0 ba0 nf0 f hoa hba hnf hf hlt
      subst hf
      constructor <;>
        simp [PrivacyToken.burning, hoa, hba, hnf, validateAmount_some_neg "privacyFee" f hlt]
  · intro pid ca nf pf
    refine ⟨?_, ?_, ?_⟩
    · intro hneg
      rcases pdeContribution_validation_phase tok env pid ca nf pf with h | ⟨pid0, ca0, nf0, pf0, hpid, hca, hnf, hpf⟩
      · exact h
      · exfalso
        rcases hneg with ⟨f, hf, hlt⟩ | ⟨f, hf, hlt⟩
        · rw [hf, validateAmount_some_neg "nativeFee" f hlt] at hnf; cases hnf
        · rw [hf, validateAmount_some_neg "privacyFee" f hlt] at hpf; cases hpf
    · intro pid0 ca0 f hpid hca hf hlt
      subst hf
      constructor <;>
        simp [PrivacyToken.pdeContribution, hpid, hca, validateAmount_some_neg "nativeFee" f hlt]
    · intro pid0 ca0 nf0 f hpid hca hnf hf hlt
      subst hf
      constructor <;>
        simp [PrivacyToken.pdeContribution, hpid, hca, hnf,
          validateAmount_some_neg "privacyFee" f hlt]
  · intro tb sa ma nf pf tf
    refine ⟨?_, ?_, ?_, ?_⟩
    · intro hneg
      rcases requestTrade_validation_phase tok env tb sa ma nf pf tf with h | ⟨tb0, sa0, ma0, nf0, pf0, tf0, htb, hsa, hma, hnf, hpf, htf⟩
      · exact h
      · exfalso
        rcases hneg with ⟨f, hf, hlt⟩ | ⟨f, hf, hlt⟩ | ⟨f, hf, hlt⟩
        · rw [hf, validateAmount_some_neg "nativeFee" f hlt] at hnf; cases hnf
        · rw [hf, validateAmount_some_neg "privacyFee" f hlt] at hpf; cases hpf
        · rw [hf, validateAmount_some_neg "tradingFee" f hlt] at htf; cases htf
    · intro tb0 sa0 ma0 f htb hsa hma hf hlt
      subst hf
      constructor <;>
        simp [PrivacyToken.requestTrade, htb, hsa, hma,
          validateAmount_some_neg "nativeFee" f hlt]
    · intro tb0 sa0 ma0 nf0 f htb hsa hma hnf hf hlt
      subst hf
      constructor <;>
        simp [PrivacyToken.requestTrade, htb, hsa, hma, hnf,
          validateAmount_some_neg "privacyFee" f hlt]
    · intro tb0 sa0 ma0 nf0 pf0 f htb hsa hma hnf hpf hf hlt
      subst hf
      constructor <;>
        simp [PrivacyToken.requestTrade, htb, hsa, hma, hnf, hpf,
          validateAmount_some_neg "tradingFee" f hlt]

/-- Witness for C3: concrete transfer with a negative native fee. -/
theorem C3_negative_fee_fails_before_collaborators_witness :
    (∃ nm rule,
      (c6Token.transfer sampleEnv (some [samplePayment]) (some (-1)) (some 5)).result
        = Except.error (Err.validation nm rule))
    ∧ (c6Token.transfer sampleEnv (some [samplePayment]) (some (-1)) (some 5)).events = [] :=
  (((C3_negative_fee_fails_before_collaborators c6Token sampleEnv).1
    (some [samplePayment]) (some (-1)) (some 5)).1)
    (Or.inl ⟨-1, rfl, by decide⟩)

/-- A collaborator environment whose transfer send collaborator fails
while the inventory queries succeed. -/
def failSendEnv : Env :=
  { sampleEnv with sendPrivacyToken := fun _ => Except.error (Err.collab 3) }

/-- C4: when a collaborator call fails, every operation rejects with the
exact error value the collaborator raised, returns no history or result
record, and invokes no downstream collaborator after the failure. -/
theorem C4_collaborator_error_propagation (tok : PrivacyToken) (env : Env) :
    (∀ pl pl0 nf nf0 pf pf0,
      validatePaymentInfoList "paymentList" pl = Except.ok pl0 →
      validateAmount "nativeFee" nf = Except.ok nf0 →
      validateAmount "privacyFee" pf = Except.ok pf0 →
      (∀ e, env.getAvailableCoins none = Except.error e →
        (tok.transfer env pl nf pf).result = Except.error e
        ∧ (tok.transfer env pl nf pf).events = [Event.getAvailableCoinsCall none])
      ∧ (∀ c1 e, env.getAvailableCoins none = Except.ok c1 →
          env.getAvailableCoins (some tok.tokenId) = Except.error e →
          (tok.transfer env pl nf pf).result = Except.error e
          ∧ (tok.transfer env pl nf pf).events
            = [Event.getAvailableCoinsCall none,
               Event.getAvailableCoinsCall (some tok.tokenId)])
      ∧ (∀ c1 c2 e, env.getAvailableCoins none = Except.ok c1 →
          env.getAvailableCoins (some tok.tokenId) = Except.ok c2 →
          env.sendPrivacyToken (tok.transferParam c1 c2 nf0 pf0 pl0) = Except.error e →
          (tok.transfer env pl nf pf).result = Except.error e
          ∧ (tok.transfer env pl nf pf).events
            = [Event.getAvailableCoinsCall none,
               Event.getAvailableCoinsCall (some tok.tokenId),
               Event.sendPrivacyTokenCall (tok.transferParam c1 c2 nf0 pf0 pl0)]))
    ∧ (∀ oa oa0 ba ba0 nf nf0 pf pf0,
      validateString "outchainAddress" oa = Except.ok oa0 →
      validateAmount "burningAmount" ba = Except.ok ba0 →
      validateAmount "nativeFee" nf = Except.ok nf0 →
      validateAmount "privacyFee" pf = Except.ok pf0 →
      (∀ e, env.getAvailableCoins none = Except.error e →
        (tok.burning env oa ba nf pf).result = Except.error e
        ∧ (tok.burning env oa ba nf pf).events = [Event.getAvailableCoinsCall none])
      ∧ (∀ c1 e, env.getAvailableCoins none = Except.ok c1 →
          env.getAvailableCoins (some tok.tokenId) = Except.error e →
          (tok.burning env oa ba nf pf).result = Except.error e
          ∧ (tok.burning env oa ba nf pf).events
            = [Event.getAvailableCoinsCall none,
               Event.getAvailableCoinsCall (some tok.tokenId)])
      ∧ (∀ c1 c2 e, env.getAvailableCoins none = Except.ok c1 →
          env.getAvailableCoins (some tok.tokenId) = Except.ok c2 →
          env.sendBurningRequest (tok.burningParam c1 c2 nf0 pf0 oa0 ba0) = Except.error e →
          (tok.burning env oa ba nf pf).result = Except.error e
          ∧ (tok.burning env oa ba nf pf).events
            = [Event.getAvailableCoinsCall none,
               Event.getAvailableCoinsCall (some tok.tokenId),
               Event.sendBurningRequestCall (tok.burningParam c1 c2 nf0 pf0 oa0 ba0)]))
    ∧ (∀ pid pid0 ca ca0 nf nf0 pf pf0,
      validateString "pdeContributionPairID" pid = Except.ok pid0 →
      validateAmount "contributedAmount" ca = Except.ok ca0 →
      validateAmount "nativeFee" nf = Except.ok nf0 →
      validateAmount "privacyFee" pf = Except.ok pf0 →
      (∀ e, env.getAvailableCoins none = Except.error e →
        (tok.pdeContribution env pid ca nf pf).result = Except.error e
        ∧ (tok.pdeContribution env pid ca nf pf).events = [Event.getAvailableCoinsCall none])
      ∧ (∀ c1 e, env.getAvailableCoins none = Except.ok c1 →
          env.getAvailableCoins (some tok.tokenId) = Except.error e →
          (tok.pdeContribution env pid ca nf pf).result = Except.error e
          ∧ (tok.pdeContribution env pid ca nf pf).events
            = [Event.getAvailableCoinsCall none,
               Event.getAvailableCoinsCall (some tok.tokenId)])
      ∧ (∀ c1 c2 e, env.getAvailableCoins none = Except.ok c1 →
          env.getAvailableCoins (some tok.tokenId) = Except.ok c2 →
          env.sendPrivacyTokenPdeContribution
            (tok.pdeContributionParam c1 c2 nf0 pf0 pid0 ca0) = Except.error e →
          (tok.pdeContribution env pid ca nf pf).result = Except.error e
          ∧ (tok.pdeContribution env pid ca nf pf).events
            = [Event.getAvailableCoinsCall none,
               Event.getAvailableCoinsCall (some tok.tokenId),
               Event.sendPdeContributionCall
                 (tok.pdeContributionParam c1 c2 nf0 pf0 pid0 ca0)]))
    ∧ (∀ tb tb0 sa sa0 ma ma0 nf nf0 pf pf0 tf tf0,
      validateString "tokenIdBuy" tb = Except.ok tb0 →
      validateAmount "sellAmount" sa = Except.ok sa0 →
      validateAmount "minimumAcceptableAmount" ma = Except.ok ma0 →
      validateAmount "nativeFee" nf = Except.ok nf0 →
      validateAmount "privacyFee" pf = Except.ok pf0 →
      validateAmount "tradingFee" tf = Except.ok tf0 →
      (∀ e, env.getAvailableCoins none = Except.error e →
        (tok.requestTrade env tb sa ma nf pf tf).result = Except.error e
        ∧ (tok.requestTrade env tb sa ma nf pf tf).events
          = [Event.getAvailableCoinsCall none])
      ∧ (∀ c1 e, env.getAvailableCoins none = Except.ok c1 →
          env.getAvailableCoins (some tok.tokenId) = Except.error e →
          (tok.requestTrade env tb sa ma nf pf tf).result = Except.error e
          ∧ (tok.requestTrade env tb sa ma nf pf tf).events
            = [Event.getAvailableCoinsCall none,
               Event.getAvailableCoinsCall (some tok.tokenId)])
      ∧ (∀ c1 c2 e, env.getAvailableCoins none = Except.ok c1 →
          env.getAvailableCoins (some tok.tokenId) = Except.ok c2 →
          env.sendPrivacyTokenPdeTradeRequest
            (tok.tradeRequestParam c1 c2 nf0 pf0 tf0 tb0 sa0 ma0) = Except.error e →
          (tok.requestTrade env tb sa ma nf pf tf).result = Except.error e
          ∧ (tok.requestTrade env tb sa ma nf pf tf).events
            = [Event.getAvailableCoinsCall none,
               Event.getAvailableCoinsCall (some tok.tokenId),
               Event.sendTradeRequestCall
                 (tok.tradeRequestParam c1 c2 nf0 pf0 tf0 tb0 sa0 ma0)]))
    ∧ (∀ info, tok.bridgeInfo = some info →
        (∀ e, tok.tokenId = ETHEREUM_TOKEN_ID →
          env.genETHDepositAddress (tok.depositCommonParams info) = Except.error e →
          (tok.bridgeGenerateDepositAddress env).result = Except.error e)
        ∧ (∀ e, tok.tokenId ≠ ETHEREUM_TOKEN_ID → info.currencyType = ERC20_CURRENCY_TYPE →
          env.genERC20DepositAddress (tok.erc20DepositParams info) = Except.error e →
          (tok.bridgeGenerateDepositAddress env).result = Except.error e)
        ∧ (∀ e, tok.tokenId ≠ ETHEREUM_TOKEN_ID → info.currencyType ≠ ERC20_CURRENCY_TYPE →
          env.genCentralizedDepositAddress (tok.depositCommonParams info) = Except.error e →
          (tok.bridgeGenerateDepositAddress env).result = Except.error e))
    ∧ (∀ info e, tok.bridgeInfo = some info →
        env.getBridgeHistory tok.bridgeHistoryParams = Except.error e →
        (tok.bridgeGetHistory env).result = Except.error e) := by
  refine ⟨?_, ?_, ?_, ?_, ?_, ?_⟩
  · intro pl pl0 nf nf0 pf pf0 hpl hnf hpf
    refine ⟨?_, ?_, ?_⟩
    · intro e he
      constructor <;> simp [PrivacyToken.transfer, hpl, hnf, hpf, he]
    · intro c1 e hc1 he
      constructor <;> simp [PrivacyToken.transfer, hpl, hnf, hpf, hc1, he]
    · intro c1 c2 e hc1 hc2 hsend
      constructor <;> simp [PrivacyToken.transfer, hpl, hnf, hpf, hc1, hc2, hsend]
  · intro oa oa0 ba ba0 nf nf0 pf pf0 hoa hba hnf hpf
    refine ⟨?_, ?_, ?_⟩
    · intro e he
      constructor <;> simp [PrivacyToken.burning, hoa, hba, hnf, hpf, he]
    · intro c1 e hc1 he
      constructor <;> simp [PrivacyToken.burning, hoa, hba, hnf, hpf, hc1, he]
    · intro c1 c2 e hc1 hc2 hsend
      constructor <;> simp [PrivacyToken.burning, hoa, hba, hnf, hpf, hc1, hc2, hsend]
  · intro pid pid0 ca ca0 nf nf0 pf pf0 hpid hca hnf hpf
    refine ⟨?_, ?_, ?_⟩
    · intro e he
      constructor <;> simp [PrivacyToken.pdeContribution, hpid, hca, hnf, hpf, he]
    · intro c1 e hc1 he
      constructor <;> simp [PrivacyToken.pdeContribution, hpid, hca, hnf, hpf, hc1, he]
    · intro c1 c2 e hc1 hc2 hsend
      constructor <;> simp [PrivacyToken.pdeContribution, hpid, hca, hnf, hpf, hc1, hc2, hsend]
  · intro tb tb0 sa sa0 ma ma0 nf nf0 pf pf0 tf tf0 htb hsa hma hnf hpf htf
    refine ⟨?_, ?_, ?_⟩
    · intro e he
      constructor <;> simp [PrivacyToken.requestTrade, htb, hsa, hma, hnf, hpf, htf, he]
    · intro c1 e hc1 he
      constructor <;> simp [PrivacyToken.requestTrade, htb, hsa, hma, hnf, hpf, htf, hc1, he]
    · intro c1 c2 e hc1 hc2 hsend
      constructor <;>
        simp [PrivacyToken.requestTrade, htb, hsa, hma, hnf, hpf, htf, hc1, hc2, hsend]
  · intro info h
    refine ⟨?_, ?_, ?_⟩
    · intro e he hgen
      simp [PrivacyToken.bridgeGenerateDepositAddress, PrivacyToken.bridgeEthereum,
        h, he, hgen]
    · intro e he hc hgen
      simp [PrivacyToken.bridgeGenerateDepositAddress, PrivacyToken.bridgeEthereum,
        PrivacyToken.bridgeErc20Token, h, he, hc, hgen]
    · intro e he hc hgen
      simp [PrivacyToken.bridgeGenerateDepositAddress, PrivacyToken.bridgeEthereum,
        PrivacyToken.bridgeErc20Token, h, he, hc, hgen]
  · intro info e h hq
    simp [PrivacyToken.bridgeGetHistory, h, hq]

/-- Witness for C4: concrete transfer through the environment whose send
collaborator fails. -/
theorem C4_collaborator_error_propagation_witness :
    (c6Token.transfer failSendEnv (some [samplePayment]) (some 10) (some 5)).result
      = Except.error (Err.collab 3)
    ∧ (c6Token.transfer failSendEnv (some [samplePayment]) (some 10) (some 5)).events
      = [Event.getAvailableCoinsCall none,
         Event.getAvailableCoinsCall (some c6Token.tokenId),
         Event.sendPrivacyTokenCall (c6Token.transferParam [] [] 10 5 [samplePayment])] :=
  (((C4_collaborator_error_propagation c6Token failSendEnv).1
    (some [samplePayment]) [samplePayment] (some 10) 10 (some 5) 5
    rfl rfl rfl).2.2) [] [] (Err.collab 3) rfl rfl rfl

end SdkV2
